import Mathlib

/-!
Shallow embedding of the BlindTest-auto pipeline
(src/blindtest/clipper.py, src/blindtest/assembler.py, src/blindtest/main.py).

Durations are modelled as rationals.  The external media engine (moviepy)
is modelled as an oracle environment: a duration query per file, a uniform
random draw per call, and a flag per target path saying whether the write
raises.  Every function additionally returns the ordered trace of I/O and
resource events it performed, so that claims about "no I/O before the
check" and "handles released on every exit path" are statable.
-/

namespace BlindTest

/-- MediaItem from video_sources.py (dataclass VideoClip). -/
structure VideoClip where
  video_id : String
  title : String
  url : String
  file_path : String
deriving DecidableEq, Repr

/-! ## clipper.py : clip_videos -/

/-- Errors escaping clip_videos.  invalidParameter and moviepyMissing are
raised as ClipGenerationError in the source; writeFailed models a foreign
exception raised by the media engine inside write_audiofile /
write_videofile (the source does not wrap those). -/
inductive ClipError
  | invalidParameter
  | moviepyMissing
  | writeFailed (target : String)
deriving DecidableEq, Repr

/-- Whether the error is an instance of ClipGenerationError (the class
caught by main). -/
def ClipError.isClipGenError : ClipError → Bool
  | .invalidParameter => true
  | .moviepyMissing => true
  | .writeFailed _ => false

/-- I/O and resource events of clip_videos, in program order. -/
inductive ClipEvent
  | mkdir (dir : String)
  | openSource (path : String) (audio : Bool)
  | extract (path : String) (start stop : ℚ)
  | write (target : String) (audio : Bool)
  | closeSource (path : String)
  | closeSub (path : String)
deriving DecidableEq, Repr

def ClipEvent.isClose : ClipEvent → Bool
  | .closeSource _ => true
  | .closeSub _ => true
  | _ => false

def ClipEvent.isWrite : ClipEvent → Bool
  | .write _ _ => true
  | _ => false

def ClipEvent.isOpen : ClipEvent → Bool
  | .openSource _ _ => true
  | _ => false

/-- An event taking the video write path (write_videofile). -/
def ClipEvent.writesVideo : ClipEvent → Bool
  | .write _ audio => !audio
  | _ => false

/-- Oracle environment for clip_videos. -/
structure ClipEnv where
  /-- whether `from moviepy.editor import ...` succeeds -/
  moviepyAvailable : Bool
  /-- media_clip.duration for the file at a path (None is possible) -/
  duration : String → Option ℚ
  /-- random.uniform, indexed by the number of the call in this run -/
  draw : Nat → ℚ → ℚ → ℚ
  /-- whether writing the excerpt at a target path raises -/
  writeFails : String → Bool

/-- Start-offset selection, lines 66-74 of clipper.py:
if duration is None or duration < clip_duration: start = 0
elif start_strategy == "random": start = random.uniform(0, max(0, duration - clip_duration))
else: start = 0. -/
def chooseStart (start_strategy : String) (duration : Option ℚ)
    (clip_duration : ℚ) (draw : ℚ → ℚ → ℚ) : ℚ :=
  match duration with
  | none => 0
  | some d =>
    if d < clip_duration then 0
    else if start_strategy = "random" then draw 0 (max 0 (d - clip_duration))
    else 0

/-- Excerpt target path: output_path / f"(video_id)_clip.mp4", then
with_suffix(".mp3") when audio_only (the name always ends in ".mp4", so
with_suffix replaces exactly that suffix). -/
def targetName (output_dir : String) (video_id : String) (audio_only : Bool) : String :=
  output_dir ++ "/" ++ video_id ++ "_clip" ++ (if audio_only then ".mp3" else ".mp4")

/-- The per-item loop of clip_videos (lines 61-87).  Each iteration opens
the source, extracts the sub-range, writes the target, appends it to the
generated list, then closes the source handle and the subclip handle.  A
raising write aborts the whole call; the closes that follow it in program
order are skipped (there is no try/finally in the source). -/
def clipLoop (env : ClipEnv) (clip_duration : ℚ) (output_dir : String)
    (start_strategy : String) (audio_only : Bool) :
    List VideoClip → Nat → Except ClipError (List String) × List ClipEvent
  | [], _ => (.ok [], [])
  | clip :: rest, i =>
    let src := clip.file_path
    let start := chooseStart start_strategy (env.duration src) clip_duration (env.draw i)
    let target := targetName output_dir clip.video_id audio_only
    let head : List ClipEvent :=
      [ClipEvent.openSource src audio_only,
       ClipEvent.extract src start (start + clip_duration)]
    if env.writeFails target then
      (.error (.writeFailed target), head)
    else
      let tail := clipLoop env clip_duration output_dir start_strategy audio_only rest (i + 1)
      (Except.map (fun files => target :: files) tail.1,
       head ++ ClipEvent.write target audio_only ::
         ClipEvent.closeSource src :: ClipEvent.closeSub src :: tail.2)

/-- clip_videos (clipper.py).  Validates clip_duration first, then loads
moviepy, then creates the output directory, then runs the per-item loop. -/
def clip_videos (env : ClipEnv) (clips : List VideoClip) (clip_duration : ℚ)
    (output_dir : String) (start_strategy : String) (audio_only : Bool) :
    Except ClipError (List String) × List ClipEvent :=
  if clip_duration ≤ 0 then (.error .invalidParameter, [])
  else if env.moviepyAvailable then
    let r := clipLoop env clip_duration output_dir start_strategy audio_only clips 0
    (r.1, ClipEvent.mkdir output_dir :: r.2)
  else (.error .moviepyMissing, [])

/-! ## assembler.py : build_blindtest -/

/-- Errors escaping build_blindtest.  emptyInput, invalidParameter and
moviepyMissing are raised as AssemblyError in the source; renderFailed
models a foreign exception raised inside the final write_audiofile /
write_videofile call (the source does not wrap those). -/
inductive AsmError
  | emptyInput
  | invalidParameter
  | moviepyMissing
  | renderFailed
deriving DecidableEq, Repr

/-- Whether the error is an instance of AssemblyError (the class caught
by main). -/
def AsmError.isAssemblyError : AsmError → Bool
  | .emptyInput => true
  | .invalidParameter => true
  | .moviepyMissing => true
  | .renderFailed => false

/-- One element of the assembled_clips list of build_blindtest: a media
clip opened from an excerpt file, or a synthesized silence of the given
duration. -/
inductive Segment
  | content (path : String)
  | silence (duration : ℚ)
deriving DecidableEq, Repr

def Segment.isContent : Segment → Bool
  | .content _ => true
  | .silence _ => false

def Segment.isSilence : Segment → Bool
  | .content _ => false
  | .silence _ => true

/-- The excerpt paths of the content segments, in timeline order. -/
def contentPaths (timeline : List Segment) : List String :=
  match timeline with
  | [] => []
  | .content p :: rest => p :: contentPaths rest
  | .silence _ :: rest => contentPaths rest

/-- The assembled_clips list built by the loop of build_blindtest
(lines 63-78): for each clip path append the opened media clip, then, when
silence_duration is truthy (a nonzero float; negatives were already
rejected), append a synthesized silence clip. -/
def buildTimeline (clips : List String) (silence_duration : ℚ) : List Segment :=
  match clips with
  | [] => []
  | p :: rest =>
    if silence_duration ≠ 0 then
      Segment.content p :: Segment.silence silence_duration ::
        buildTimeline rest silence_duration
    else
      Segment.content p :: buildTimeline rest silence_duration

/-- I/O and resource events of build_blindtest, in program order. -/
inductive AsmEvent
  | mkdirParent (output_path : String)
  | openClip (path : String) (audio : Bool)
  | renderWrite (output_path : String) (audio : Bool)
  | closeSegment (seg : Segment)
  | closeFinal
deriving DecidableEq, Repr

def AsmEvent.isClose : AsmEvent → Bool
  | .closeSegment _ => true
  | .closeFinal => true
  | _ => false

/-- An event taking the video write path (write_videofile on the composed
clip). -/
def AsmEvent.writesVideo : AsmEvent → Bool
  | .renderWrite _ audio => !audio
  | _ => false

/-- Oracle environment for build_blindtest. -/
structure AsmEnv where
  /-- whether `from moviepy.editor import ...` succeeds -/
  moviepyAvailable : Bool
  /-- whether the final write_audiofile / write_videofile call raises -/
  renderFails : Bool

/-- build_blindtest (assembler.py).  Checks the two preconditions, loads
moviepy, creates the parent directory of output_path, opens every clip while
building the assembled_clips timeline, renders once, and only then closes
every timeline segment followed by the composed clip.  A raising render
aborts the call before any close runs (there is no try/finally in the
source). -/
def build_blindtest (env : AsmEnv) (clips : List String) (output_path : String)
    (silence_duration : ℚ) (audio_only : Bool) :
    Except AsmError String × List AsmEvent :=
  if clips = [] then (.error .emptyInput, [])
  else if silence_duration < 0 then (.error .invalidParameter, [])
  else if env.moviepyAvailable then
    let timeline := buildTimeline clips silence_duration
    let prefixEvents :=
      AsmEvent.mkdirParent output_path ::
        clips.map (fun p => AsmEvent.openClip p audio_only) ++
          [AsmEvent.renderWrite output_path audio_only]
    if env.renderFails then
      (.error .renderFailed, prefixEvents)
    else
      (.ok output_path,
       prefixEvents ++ timeline.map AsmEvent.closeSegment ++ [AsmEvent.closeFinal])
  else (.error .moviepyMissing, [])

/-! ## main.py : main -/

/-- Parsed command-line arguments of main.py. -/
structure MainArgs where
  query : String
  max_results : Nat
  clip_duration : ℚ
  output : String
  downloads : String
  clips : String
  no_random : Bool
  audio_only : Bool
  silence_duration : ℚ

/-- Oracle environment for a run of main: the outcome of
fetch_video_clips (error models a VideoRetrievalError), the clipper and
assembler oracles, and whether the two temporary directories exist when
the finally block runs. -/
structure MainEnv where
  fetch : Except Unit (List VideoClip)
  clipEnv : ClipEnv
  asmEnv : AsmEnv
  downloadDirExists : Bool
  clipsDirExists : Bool

/-- How the process leaves main: a returned exit code, or an exception
that is none of VideoRetrievalError / ClipGenerationError / AssemblyError
and therefore escapes the except clause. -/
inductive ExitStatus
  | exit (code : Nat)
  | uncaught
deriving DecidableEq, Repr

/-- The try/except part of main (lines 47-76): run the three stages in
sequence; any of the three library errors is caught and turns into
return 1; a foreign exception propagates.  clip_videos is called without
start_strategy, so the default "random" applies. -/
def mainTry (env : MainEnv) (args : MainArgs) : ExitStatus :=
  match env.fetch with
  | .error _ => .exit 1
  | .ok videos =>
    match (clip_videos env.clipEnv videos args.clip_duration args.clips
        "random" args.audio_only).1 with
    | .error e => if e.isClipGenError then .exit 1 else .uncaught
    | .ok generated =>
      match (build_blindtest env.asmEnv generated args.output
          args.silence_duration args.audio_only).1 with
      | .error e => if e.isAssemblyError then .exit 1 else .uncaught
      | .ok _ => .exit 0

/-- The finally block of main (lines 77-81): remove each of the two
directories when it exists.  Returns the list of directories removed. -/
def mainCleanup (env : MainEnv) (args : MainArgs) : List String :=
  (if env.downloadDirExists then [args.downloads] else []) ++
    (if env.clipsDirExists then [args.clips] else [])

/-- main (main.py): the try/except result paired with the removals done
by the finally block, which runs on every exit path. -/
def main (env : MainEnv) (args : MainArgs) : ExitStatus × List String :=
  (mainTry env args, mainCleanup env args)

/-! ## Concrete sample inputs used by witnesses -/

instance {e a : Type} [DecidableEq e] [DecidableEq a] : DecidableEq (Except e a)
  | .ok x, .ok y => if h : x = y then .isTrue (by rw [h]) else .isFalse (by simp [h])
  | .error x, .error y => if h : x = y then .isTrue (by rw [h]) else .isFalse (by simp [h])
  | .ok _, .error _ => .isFalse (by simp)
  | .error _, .ok _ => .isFalse (by simp)

/-- A downloaded item as produced by fetch_video_clips. -/
def item1 : VideoClip :=
  ⟨"id1", "Song One", "https://www.youtube.com/watch?v=id1", "downloads/id1.mp4"⟩

def item2 : VideoClip :=
  ⟨"id2", "Song Two", "https://www.youtube.com/watch?v=id2", "downloads/id2.mp4"⟩

/-- A media engine where every file lasts 20 seconds and every write
succeeds. -/
def engineOk : ClipEnv := ⟨true, fun _ => some 20, fun _ lo _ => lo, fun _ => false⟩

/-- A media engine where durations are unknown and every write succeeds. -/
def engineNoDuration : ClipEnv := ⟨true, fun _ => none, fun _ lo _ => lo, fun _ => false⟩

/-- A media engine where every excerpt write raises. -/
def engineWriteFail : ClipEnv := ⟨true, fun _ => some 20, fun _ lo _ => lo, fun _ => true⟩

/-- An assembler engine whose render succeeds. -/
def renderOk : AsmEnv := ⟨true, false⟩

/-- An assembler engine whose render raises. -/
def renderFail : AsmEnv := ⟨true, true⟩

/-- Command-line arguments with the default values of main.py. -/
def defaultArgs : MainArgs :=
  ⟨"rock hits", 5, 10, "blindtest.mp4", "downloads", "clips", false, false, 1⟩

/-- A full-pipeline oracle where fetching fails with VideoRetrievalError. -/
def runFetchFail : MainEnv := ⟨.error (), engineOk, renderOk, true, true⟩

/-- A full-pipeline oracle where every stage succeeds. -/
def runAllOk : MainEnv := ⟨.ok [item1, item2], engineOk, renderOk, true, true⟩

/-! ## Helper lemmas -/

theorem buildTimeline_zero (clips : List String) :
    buildTimeline clips 0 = clips.map Segment.content := by
  induction clips with
  | nil => rfl
  | cons p rest ih => simp [buildTimeline, ih]

theorem buildTimeline_of_ne (clips : List String) (s : ℚ) (hs : s ≠ 0) :
    buildTimeline clips s =
      clips.flatMap (fun p => [Segment.content p, Segment.silence s]) := by
  induction clips with
  | nil => rfl
  | cons p rest ih => simp [buildTimeline, hs, ih]

theorem contentPaths_buildTimeline (clips : List String) (s : ℚ) :
    contentPaths (buildTimeline clips s) = clips := by
  induction clips with
  | nil => rfl
  | cons p rest ih =>
    by_cases hs : s = 0
    · subst hs; simp [buildTimeline, contentPaths, ih]
    · simp [buildTimeline, hs, contentPaths, ih]

theorem clipLoop_ok_files (env : ClipEnv) (cd : ℚ) (dir strat : String) (ao : Bool) :
    ∀ (clips : List VideoClip) (i : Nat) (files : List String),
      (clipLoop env cd dir strat ao clips i).1 = .ok files →
      files = clips.map (fun c => targetName dir c.video_id ao) := by
  intro clips
  induction clips with
  | nil => intro i files h; simpa [clipLoop] using h.symm
  | cons clip rest ih =>
    intro i files h
    by_cases hw : env.writeFails (targetName dir clip.video_id ao)
    · simp [clipLoop, hw] at h
    · rcases htail : (clipLoop env cd dir strat ao rest (i + 1)).1 with e | fs
      · simp [clipLoop, hw, htail, Except.map] at h
      · simp [clipLoop, hw, htail, Except.map] at h
        subst h
        simp [ih (i + 1) fs htail]

theorem countP_content_buildTimeline (clips : List String) (s : ℚ) :
    (buildTimeline clips s).countP Segment.isContent = clips.length := by
  induction clips with
  | nil => rfl
  | cons p rest ih =>
    by_cases hs : s = 0
    · subst hs
      simp [buildTimeline, List.countP_cons, Segment.isContent, ih]
    · simp [buildTimeline, hs, List.countP_cons, Segment.isContent, ih]

theorem countP_silence_buildTimeline_zero (clips : List String) :
    (buildTimeline clips 0).countP Segment.isSilence = 0 := by
  induction clips with
  | nil => rfl
  | cons p rest ih =>
    simp [buildTimeline, List.countP_cons, Segment.isSilence, ih]

theorem countP_silence_buildTimeline_ne (clips : List String) (s : ℚ) (hs : s ≠ 0) :
    (buildTimeline clips s).countP Segment.isSilence = clips.length := by
  induction clips with
  | nil => rfl
  | cons p rest ih =>
    simp [buildTimeline, hs, List.countP_cons, Segment.isSilence, ih]

theorem clipLoop_close_eq_two_mul_write (env : ClipEnv) (cd : ℚ) (dir strat : String)
    (ao : Bool) : ∀ (clips : List VideoClip) (i : Nat),
    (clipLoop env cd dir strat ao clips i).2.countP ClipEvent.isClose =
      2 * (clipLoop env cd dir strat ao clips i).2.countP ClipEvent.isWrite := by
  intro clips
  induction clips with
  | nil => intro i; rfl
  | cons clip rest ih =>
    intro i
    by_cases hw : env.writeFails (targetName dir clip.video_id ao)
    · simp [clipLoop, hw, List.countP_cons, ClipEvent.isClose, ClipEvent.isWrite]
    · simp only [clipLoop, hw, Bool.false_eq_true, if_false, List.cons_append,
        List.nil_append, List.countP_cons]
      simp [ClipEvent.isClose, ClipEvent.isWrite, ih (i + 1)]
      omega

theorem clipLoop_error_open_count (env : ClipEnv) (cd : ℚ) (dir strat : String)
    (ao : Bool) : ∀ (clips : List VideoClip) (i : Nat) (e : ClipError),
    (clipLoop env cd dir strat ao clips i).1 = .error e →
    (clipLoop env cd dir strat ao clips i).2.countP ClipEvent.isOpen =
      (clipLoop env cd dir strat ao clips i).2.countP ClipEvent.isWrite + 1 := by
  intro clips
  induction clips with
  | nil => intro i e h; simp [clipLoop] at h
  | cons clip rest ih =>
    intro i e h
    by_cases hw : env.writeFails (targetName dir clip.video_id ao)
    · simp [clipLoop, hw, List.countP_cons, ClipEvent.isOpen, ClipEvent.isWrite]
    · rcases htail : (clipLoop env cd dir strat ao rest (i + 1)).1 with e2 | fs
      · simp only [clipLoop, hw, Bool.false_eq_true, if_false, List.cons_append,
          List.nil_append, List.countP_cons]
        simp [ClipEvent.isOpen, ClipEvent.isWrite, ih (i + 1) e2 htail]
      · simp [clipLoop, hw, htail, Except.map] at h

theorem clipLoop_error_is_writeFailed (env : ClipEnv) (cd : ℚ) (dir strat : String)
    (ao : Bool) : ∀ (clips : List VideoClip) (i : Nat) (e : ClipError),
    (clipLoop env cd dir strat ao clips i).1 = .error e →
    ∃ t, e = .writeFailed t := by
  intro clips
  induction clips with
  | nil => intro i e h; simp [clipLoop] at h
  | cons clip rest ih =>
    intro i e h
    by_cases hw : env.writeFails (targetName dir clip.video_id ao)
    · simp [clipLoop, hw] at h
      exact ⟨targetName dir clip.video_id ao, h.symm⟩
    · rcases htail : (clipLoop env cd dir strat ao rest (i + 1)).1 with e2 | fs
      · simp [clipLoop, hw, htail, Except.map] at h
        have h2 := ih (i + 1) e2 htail
        simp_all
      · simp [clipLoop, hw, htail, Except.map] at h

theorem countP_close_map_closeSegment (ts : List Segment) :
    (ts.map AsmEvent.closeSegment).countP AsmEvent.isClose = ts.length := by
  induction ts with
  | nil => rfl
  | cons t rest ih => simp [List.countP_cons, AsmEvent.isClose, ih]

theorem countP_close_map_openClip (clips : List String) (ao : Bool) :
    (clips.map (fun p => AsmEvent.openClip p ao)).countP AsmEvent.isClose = 0 := by
  induction clips with
  | nil => rfl
  | cons p rest ih => simp [List.countP_cons, AsmEvent.isClose, ih]

theorem clip_videos_ok_files (env : ClipEnv) (clips : List VideoClip) (cd : ℚ)
    (dir strat : String) (ao : Bool) (files : List String)
    (h : (clip_videos env clips cd dir strat ao).1 = .ok files) :
    files = clips.map (fun c => targetName dir c.video_id ao) := by
  by_cases h1 : cd ≤ 0
  · simp [clip_videos, h1] at h
  · by_cases h2 : env.moviepyAvailable
    · simp [clip_videos, h1, h2] at h
      exact clipLoop_ok_files env cd dir strat ao clips 0 files h
    · simp [clip_videos, h1, h2] at h

theorem clipLoop_countP_writesVideo (env : ClipEnv) (cd : ℚ) (dir strat : String) :
    ∀ (clips : List VideoClip) (i : Nat),
      (clipLoop env cd dir strat true clips i).2.countP ClipEvent.writesVideo = 0 := by
  intro clips
  induction clips with
  | nil => intro i; rfl
  | cons clip rest ih =>
    intro i
    by_cases hw : env.writeFails (targetName dir clip.video_id true)
    · simp [clipLoop, hw, List.countP_cons, ClipEvent.writesVideo]
    · simp only [clipLoop, hw, Bool.false_eq_true, if_false, List.cons_append,
        List.nil_append, List.countP_cons]
      simp [ClipEvent.writesVideo, ih (i + 1)]

theorem countP_writesVideo_openClips (clips : List String) (ao : Bool) :
    (clips.map (fun p => AsmEvent.openClip p ao)).countP AsmEvent.writesVideo = 0 := by
  induction clips with
  | nil => rfl
  | cons p rest ih => simp [List.countP_cons, AsmEvent.writesVideo, ih]

theorem countP_writesVideo_closeSegs (ts : List Segment) :
    (ts.map AsmEvent.closeSegment).countP AsmEvent.writesVideo = 0 := by
  induction ts with
  | nil => rfl
  | cons t rest ih => simp [List.countP_cons, AsmEvent.writesVideo, ih]

theorem build_blindtest_countP_writesVideo (env : AsmEnv) (clips : List String)
    (out : String) (s : ℚ) :
    (build_blindtest env clips out s true).2.countP AsmEvent.writesVideo = 0 := by
  by_cases h1 : clips = []
  · simp [build_blindtest, h1]
  · by_cases h2 : s < 0
    · simp [build_blindtest, h1, h2]
    · by_cases h3 : env.moviepyAvailable
      · by_cases h4 : env.renderFails
        · simp [build_blindtest, h1, h2, h3, h4, List.countP_append, List.countP_cons,
            AsmEvent.writesVideo, countP_writesVideo_openClips]
        · simp [build_blindtest, h1, h2, h3, h4, List.countP_append, List.countP_cons,
            AsmEvent.writesVideo, countP_writesVideo_openClips, countP_writesVideo_closeSegs]
      · simp [build_blindtest, h1, h2, h3]

theorem countP_isClose_comp_closeSegment (ts : List Segment) :
    List.countP (AsmEvent.isClose ∘ AsmEvent.closeSegment) ts = ts.length := by
  induction ts with
  | nil => rfl
  | cons t rest ih => simp [List.countP_cons, Function.comp, AsmEvent.isClose, ih]

theorem countP_isClose_comp_openClip (clips : List String) (ao : Bool) :
    List.countP (AsmEvent.isClose ∘ fun p => AsmEvent.openClip p ao) clips = 0 := by
  induction clips with
  | nil => rfl
  | cons p rest ih => simp [List.countP_cons, Function.comp, AsmEvent.isClose, ih]

/-! ## Claims -/

/-- C2: for every non-empty excerpt list accepted by build_blindtest, the
timeline it builds contains exactly one content segment per excerpt and,
when silence_duration is zero, no silence segment; when silence_duration
is positive, exactly one silence segment after every excerpt including the
last one, interleaved content-then-silence. -/
theorem timeline_segment_counts (clips : List String) (s : ℚ) (h : clips ≠ []) :
    (s = 0 → (buildTimeline clips s).countP Segment.isContent = clips.length ∧
      (buildTimeline clips s).countP Segment.isSilence = 0) ∧
    (0 < s → (buildTimeline clips s).countP Segment.isContent = clips.length ∧
      (buildTimeline clips s).countP Segment.isSilence = clips.length ∧
      buildTimeline clips s =
        clips.flatMap (fun p => [Segment.content p, Segment.silence s])) := by
  refine ⟨?_, ?_⟩
  · intro hs; subst hs
    exact ⟨countP_content_buildTimeline clips 0, countP_silence_buildTimeline_zero clips⟩
  · intro hs
    have hne : s ≠ 0 := ne_of_gt hs
    exact ⟨countP_content_buildTimeline clips s,
      countP_silence_buildTimeline_ne clips s hne, buildTimeline_of_ne clips s hne⟩

theorem timeline_segment_counts_witness :
    (buildTimeline ["clips/id1_clip.mp4"] 1).countP Segment.isContent = 1 ∧
    (buildTimeline ["clips/id1_clip.mp4"] 1).countP Segment.isSilence = 1 := by
  have h := (timeline_segment_counts ["clips/id1_clip.mp4"] 1 (by decide)).2 (by decide)
  exact ⟨h.1, h.2.1⟩

/-- C3: the excerpt list returned by clip_videos is in input order, one
target per item, and the content segments of the timeline built by
build_blindtest appear in the order of the excerpt list passed in. -/
theorem order_preservation (env : ClipEnv) (clips : List VideoClip) (cd : ℚ)
    (dir strat : String) (ao : Bool) (files : List String) (paths : List String)
    (s : ℚ) (h : (clip_videos env clips cd dir strat ao).1 = .ok files) :
    files = clips.map (fun c => targetName dir c.video_id ao) ∧
    contentPaths (buildTimeline paths s) = paths := by
  constructor
  · by_cases h1 : cd ≤ 0
    · simp [clip_videos, h1] at h
    · by_cases h2 : env.moviepyAvailable
      · simp [clip_videos, h1, h2] at h
        exact clipLoop_ok_files env cd dir strat ao clips 0 files h
      · simp [clip_videos, h1, h2] at h
  · exact contentPaths_buildTimeline paths s

theorem order_preservation_witness :
    ["clips/id1_clip.mp4", "clips/id2_clip.mp4"] =
      [item1, item2].map (fun c => targetName "clips" c.video_id false) ∧
    contentPaths (buildTimeline ["a", "b"] 1) = ["a", "b"] :=
  order_preservation engineOk [item1, item2] 10 "clips" "random" false
    ["clips/id1_clip.mp4", "clips/id2_clip.mp4"] ["a", "b"] 1 (by decide)

/-- C4: when the total duration is at least the excerpt duration, the
random start strategy passes exactly the window from 0 to
totalDuration - excerptDuration to the uniform sampler, and any draw of a
valid sampler stays in that window, so the excerpt never runs past the
end of the media. -/
theorem random_start_uniform_in_window (d cd : ℚ) (draw : ℚ → ℚ → ℚ)
    (hdc : cd ≤ d)
    (hdraw : ∀ lo hi : ℚ, lo ≤ hi → lo ≤ draw lo hi ∧ draw lo hi ≤ hi) :
    chooseStart "random" (some d) cd draw = draw 0 (d - cd) ∧
    0 ≤ chooseStart "random" (some d) cd draw ∧
    chooseStart "random" (some d) cd draw + cd ≤ d := by
  have h1 : ¬ d < cd := not_lt.mpr hdc
  have h2 : (0 : ℚ) ≤ d - cd := by linarith
  have heq : chooseStart "random" (some d) cd draw = draw 0 (d - cd) := by
    simp [chooseStart, h1, max_eq_right h2]
  obtain ⟨hlo, hhi⟩ := hdraw 0 (d - cd) h2
  refine ⟨heq, ?_, ?_⟩ <;> rw [heq] <;> linarith

theorem random_start_uniform_in_window_witness :
    chooseStart "random" (some 20) 10 (fun lo _ => lo) = (fun lo _ => lo : ℚ → ℚ → ℚ) 0 10 ∧
    0 ≤ chooseStart "random" (some 20) 10 (fun lo _ => lo) ∧
    chooseStart "random" (some 20) 10 (fun lo _ => lo) + 10 ≤ 20 := by
  have h := random_start_uniform_in_window 20 10 (fun lo _ => lo) (by norm_num)
    (fun lo hi hle => ⟨le_refl lo, hle⟩)
  exact ⟨h.1, h.2.1, h.2.2⟩

/-- C5: when the duration of an item is unknown or strictly below the
requested excerpt duration, the start offset is forced to 0 and the item
raises no error: its iteration runs the normal open, extract from 0,
write, close, close sequence and the loop continues with the rest. -/
theorem short_or_unknown_duration_start_zero (strat : String) (cd : ℚ) :
    (∀ draw : ℚ → ℚ → ℚ, chooseStart strat none cd draw = 0) ∧
    (∀ (d : ℚ) (draw : ℚ → ℚ → ℚ), d < cd → chooseStart strat (some d) cd draw = 0) ∧
    (∀ (env : ClipEnv) (dir : String) (ao : Bool) (clip : VideoClip)
        (rest : List VideoClip) (i : Nat),
      (env.duration clip.file_path = none ∨
        ∃ d, env.duration clip.file_path = some d ∧ d < cd) →
      env.writeFails (targetName dir clip.video_id ao) = false →
      clipLoop env cd dir strat ao (clip :: rest) i =
        (Except.map (fun files => targetName dir clip.video_id ao :: files)
            (clipLoop env cd dir strat ao rest (i + 1)).1,
          ClipEvent.openSource clip.file_path ao ::
            ClipEvent.extract clip.file_path 0 (0 + cd) ::
              ClipEvent.write (targetName dir clip.video_id ao) ao ::
                ClipEvent.closeSource clip.file_path ::
                  ClipEvent.closeSub clip.file_path ::
                    (clipLoop env cd dir strat ao rest (i + 1)).2)) := by
  refine ⟨fun draw => rfl, fun d draw hd => by simp [chooseStart, hd], ?_⟩
  intro env dir ao clip rest i hdur hw
  have hstart : chooseStart strat (env.duration clip.file_path) cd (env.draw i) = 0 := by
    rcases hdur with hnone | ⟨d, hd, hlt⟩
    · simp [hnone, chooseStart]
    · simp [hd, chooseStart, hlt]
  simp [clipLoop, hw, hstart]

theorem short_or_unknown_duration_start_zero_witness :
    chooseStart "start" none 10 (fun lo _ => lo) = 0 ∧
    chooseStart "start" (some 5) 10 (fun lo _ => lo) = 0 ∧
    clipLoop engineNoDuration 10 "clips" "start" false [item1] 0 =
      (Except.map (fun files => targetName "clips" item1.video_id false :: files)
          (clipLoop engineNoDuration 10 "clips" "start" false [] 1).1,
        ClipEvent.openSource item1.file_path false ::
          ClipEvent.extract item1.file_path 0 (0 + 10) ::
            ClipEvent.write (targetName "clips" item1.video_id false) false ::
              ClipEvent.closeSource item1.file_path ::
                ClipEvent.closeSub item1.file_path ::
                  (clipLoop engineNoDuration 10 "clips" "start" false [] 1).2) := by
  have h := short_or_unknown_duration_start_zero "start" 10
  exact ⟨h.1 _, h.2.1 5 _ (by norm_num),
    h.2.2 engineNoDuration "clips" false item1 [] 0 (Or.inl rfl) rfl⟩

/-- C6: a non-positive clip_duration makes clip_videos fail with the
invalid-parameter ClipGenerationError and an empty event trace: no
directory is created, no source file opened, no file written. -/
theorem invalid_clip_duration_before_io (env : ClipEnv) (clips : List VideoClip)
    (cd : ℚ) (dir strat : String) (ao : Bool) (h : cd ≤ 0) :
    clip_videos env clips cd dir strat ao = (.error .invalidParameter, []) := by
  simp [clip_videos, h]

theorem invalid_clip_duration_before_io_witness :
    clip_videos engineOk [item1] 0 "clips" "random" false =
      (.error .invalidParameter, []) :=
  invalid_clip_duration_before_io engineOk [item1] 0 "clips" "random" false (le_refl 0)

/-- C7: build_blindtest on an empty excerpt list fails with the
empty-input AssemblyError and an empty event trace (not even the parent
directory of the output is created), and on a non-empty list with a
negative silence_duration fails with the invalid-parameter AssemblyError,
likewise before any event. -/
theorem assemble_empty_and_negative_silence (env : AsmEnv) (out : String) (s : ℚ)
    (ao : Bool) :
    (∀ clips : List String, clips = [] →
      build_blindtest env clips out s ao = (.error .emptyInput, [])) ∧
    (∀ clips : List String, clips ≠ [] → s < 0 →
      build_blindtest env clips out s ao = (.error .invalidParameter, [])) := by
  constructor
  · intro clips h; subst h; rfl
  · intro clips h hs
    simp [build_blindtest, h, hs]

theorem assemble_empty_and_negative_silence_witness :
    build_blindtest renderOk [] "blindtest.mp4" (-1) false = (.error .emptyInput, []) ∧
    build_blindtest renderOk ["clips/id1_clip.mp4"] "blindtest.mp4" (-1) false =
      (.error .invalidParameter, []) := by
  have h := assemble_empty_and_negative_silence renderOk "blindtest.mp4" (-1) false
  exact ⟨h.1 [] rfl, h.2 ["clips/id1_clip.mp4"] (by decide) (by norm_num)⟩

/-- C1, as stated, is false: on a failing render the close calls that
follow the write in program order are skipped.  Concretely, with one
excerpt and a raising render, build_blindtest opens the excerpt handle,
fails, and performs zero close operations. -/
theorem handle_release_counterexample :
    (build_blindtest renderFail ["clips/id1_clip.mp3"] "blindtest.mp3" 1 true).1 =
      .error .renderFailed ∧
    AsmEvent.openClip "clips/id1_clip.mp3" true ∈
      (build_blindtest renderFail ["clips/id1_clip.mp3"] "blindtest.mp3" 1 true).2 ∧
    (build_blindtest renderFail ["clips/id1_clip.mp3"] "blindtest.mp3" 1 true).2.countP
      AsmEvent.isClose = 0 := by
  decide

/-- C1 amended: handles are released on the success path only.  In
clip_videos every successfully written item is followed by exactly its
two close operations (close count = twice the write count, on every run),
but a raising write leaves the failing item with an open handle and no
close (open count = write count + 1).  In build_blindtest a successful
render is followed by one close per timeline segment plus the close of
the composed clip, while a raising render is followed by zero close
operations. -/
theorem handle_release_success_only :
    (∀ (env : ClipEnv) (clips : List VideoClip) (cd : ℚ) (dir strat : String)
        (ao : Bool),
      (clip_videos env clips cd dir strat ao).2.countP ClipEvent.isClose =
        2 * (clip_videos env clips cd dir strat ao).2.countP ClipEvent.isWrite) ∧
    (∀ (env : ClipEnv) (clips : List VideoClip) (cd : ℚ) (dir strat : String)
        (ao : Bool) (e : ClipError),
      (clip_videos env clips cd dir strat ao).1 = .error e →
      env.moviepyAvailable = true → ¬ cd ≤ 0 →
      (clip_videos env clips cd dir strat ao).2.countP ClipEvent.isOpen =
        (clip_videos env clips cd dir strat ao).2.countP ClipEvent.isWrite + 1) ∧
    (∀ (env : AsmEnv) (clips : List String) (out : String) (s : ℚ) (ao : Bool)
        (p : String),
      (build_blindtest env clips out s ao).1 = .ok p →
      (build_blindtest env clips out s ao).2.countP AsmEvent.isClose =
        (buildTimeline clips s).length + 1) ∧
    (∀ (env : AsmEnv) (clips : List String) (out : String) (s : ℚ) (ao : Bool),
      (build_blindtest env clips out s ao).1 = .error .renderFailed →
      (build_blindtest env clips out s ao).2.countP AsmEvent.isClose = 0) := by
  refine ⟨?_, ?_, ?_, ?_⟩
  · intro env clips cd dir strat ao
    by_cases h1 : cd ≤ 0
    · simp [clip_videos, h1]
    · by_cases h2 : env.moviepyAvailable
      · simp [clip_videos, h1, h2, List.countP_cons, ClipEvent.isClose, ClipEvent.isWrite,
          clipLoop_close_eq_two_mul_write env cd dir strat ao clips 0]
      · simp [clip_videos, h1, h2]
  · intro env clips cd dir strat ao e h h2 h1
    simp only [clip_videos, h1, if_false, h2, if_true] at h ⊢
    simp only [List.countP_cons, ClipEvent.isOpen, ClipEvent.isWrite]
    simpa using clipLoop_error_open_count env cd dir strat ao clips 0 e h
  · intro env clips out s ao p h
    by_cases h1 : clips = []
    · simp [build_blindtest, h1] at h
    · by_cases h2 : s < 0
      · simp [build_blindtest, h1, h2] at h
      · by_cases h3 : env.moviepyAvailable
        · by_cases h4 : env.renderFails
          · simp [build_blindtest, h1, h2, h3, h4] at h
          · simp [build_blindtest, h1, h2, h3, h4, List.countP_append, List.countP_cons,
              AsmEvent.isClose, countP_isClose_comp_closeSegment, countP_isClose_comp_openClip]
        · simp [build_blindtest, h1, h2, h3] at h
  · intro env clips out s ao h
    by_cases h1 : clips = []
    · simp [build_blindtest, h1] at h
    · by_cases h2 : s < 0
      · simp [build_blindtest, h1, h2] at h
      · by_cases h3 : env.moviepyAvailable
        · by_cases h4 : env.renderFails
          · simp [build_blindtest, h1, h2, h3, h4, List.countP_append, List.countP_cons,
              AsmEvent.isClose, countP_isClose_comp_openClip]
          · simp [build_blindtest, h1, h2, h3, h4] at h
        · simp [build_blindtest, h1, h2, h3] at h

theorem handle_release_success_only_witness :
    (clip_videos engineOk [item1] 10 "clips" "start" false).2.countP ClipEvent.isClose =
      2 * (clip_videos engineOk [item1] 10 "clips" "start" false).2.countP
        ClipEvent.isWrite ∧
    (clip_videos engineWriteFail [item1] 10 "clips" "start" false).2.countP
        ClipEvent.isOpen =
      (clip_videos engineWriteFail [item1] 10 "clips" "start" false).2.countP
        ClipEvent.isWrite + 1 ∧
    (build_blindtest renderOk ["clips/id1_clip.mp4"] "blindtest.mp4" 1 false).2.countP
        AsmEvent.isClose =
      (buildTimeline ["clips/id1_clip.mp4"] 1).length + 1 ∧
    (build_blindtest renderFail ["clips/id1_clip.mp4"] "blindtest.mp4" 1 false).2.countP
        AsmEvent.isClose = 0 := by
  have h := handle_release_success_only
  refine ⟨h.1 engineOk [item1] 10 "clips" "start" false, ?_, ?_, ?_⟩
  · exact h.2.1 engineWriteFail [item1] 10 "clips" "start" false
      (.writeFailed (targetName "clips" item1.video_id false)) (by decide) rfl (by decide)
  · exact h.2.2.1 renderOk ["clips/id1_clip.mp4"] "blindtest.mp4" 1 false
      "blindtest.mp4" (by decide)
  · exact h.2.2.2 renderFail ["clips/id1_clip.mp4"] "blindtest.mp4" 1 false (by decide)

/-- C8: with audio_only selected, every generated excerpt file is the
deterministic target of its item id with the audio extension .mp3, no
clip_videos event takes the video write path, and no build_blindtest
event takes the video write path (the final render writes audio only). -/
theorem audio_only_write_paths :
    (∀ (env : ClipEnv) (clips : List VideoClip) (cd : ℚ) (dir strat : String)
        (files : List String),
      (clip_videos env clips cd dir strat true).1 = .ok files →
      files = clips.map (fun c => targetName dir c.video_id true) ∧
      ∀ f ∈ files, ∃ stem, f = stem ++ ".mp3") ∧
    (∀ (env : ClipEnv) (clips : List VideoClip) (cd : ℚ) (dir strat : String),
      ∀ e ∈ (clip_videos env clips cd dir strat true).2, e.writesVideo = false) ∧
    (∀ (env : AsmEnv) (clips : List String) (out : String) (s : ℚ),
      ∀ e ∈ (build_blindtest env clips out s true).2, e.writesVideo = false) := by
  refine ⟨?_, ?_, ?_⟩
  · intro env clips cd dir strat files h
    have hfiles := clip_videos_ok_files env clips cd dir strat true files h
    refine ⟨hfiles, ?_⟩
    intro f hf
    rw [hfiles] at hf
    simp only [List.mem_map] at hf
    obtain ⟨c, hc, rfl⟩ := hf
    exact ⟨dir ++ "/" ++ c.video_id ++ "_clip", rfl⟩
  · intro env clips cd dir strat e he
    by_cases h1 : cd ≤ 0
    · simp [clip_videos, h1] at he
    · by_cases h2 : env.moviepyAvailable
      · simp [clip_videos, h1, h2] at he
        rcases he with rfl | hmem
        · rfl
        · have h0 := clipLoop_countP_writesVideo env cd dir strat clips 0
          simpa using List.countP_eq_zero.mp h0 e hmem
      · simp [clip_videos, h1, h2] at he
  · intro env clips out s e he
    have h0 := build_blindtest_countP_writesVideo env clips out s
    simpa using List.countP_eq_zero.mp h0 e he

theorem audio_only_write_paths_witness :
    (["clips/id1_clip.mp3"] = [item1].map (fun c => targetName "clips" c.video_id true) ∧
      ∀ f ∈ ["clips/id1_clip.mp3"], ∃ stem, f = stem ++ ".mp3") ∧
    (ClipEvent.write "clips/id1_clip.mp3" true).writesVideo = false ∧
    (AsmEvent.renderWrite "blindtest.mp3" true).writesVideo = false := by
  have h := audio_only_write_paths
  refine ⟨h.1 engineOk [item1] 10 "clips" "start" ["clips/id1_clip.mp3"] (by decide),
    ?_, ?_⟩
  · exact h.2.1 engineOk [item1] 10 "clips" "start"
      (ClipEvent.write "clips/id1_clip.mp3" true) (by decide)
  · exact h.2.2 renderOk ["clips/id1_clip.mp3"] "blindtest.mp3" 1
      (AsmEvent.renderWrite "blindtest.mp3" true) (by decide)

/-- C9: the finally block of main removes the download directory and the
clips directory whenever they exist, on every exit path, and main returns
0 when the three stages succeed and 1 when a retrieval, generation, or
assembly failure (one of the three caught exception classes) is raised. -/
theorem orchestrator_cleanup_and_exit (env : MainEnv) (args : MainArgs) :
    (env.downloadDirExists = true → args.downloads ∈ (main env args).2) ∧
    (env.clipsDirExists = true → args.clips ∈ (main env args).2) ∧
    (env.fetch = .error () → (main env args).1 = .exit 1) ∧
    (∀ (videos : List VideoClip) (e : ClipError), env.fetch = .ok videos →
      (clip_videos env.clipEnv videos args.clip_duration args.clips "random"
          args.audio_only).1 = .error e →
      e.isClipGenError = true → (main env args).1 = .exit 1) ∧
    (∀ (videos : List VideoClip) (generated : List String) (e : AsmError),
      env.fetch = .ok videos →
      (clip_videos env.clipEnv videos args.clip_duration args.clips "random"
          args.audio_only).1 = .ok generated →
      (build_blindtest env.asmEnv generated args.output args.silence_duration
          args.audio_only).1 = .error e →
      e.isAssemblyError = true → (main env args).1 = .exit 1) ∧
    (∀ (videos : List VideoClip) (generated : List String) (out : String),
      env.fetch = .ok videos →
      (clip_videos env.clipEnv videos args.clip_duration args.clips "random"
          args.audio_only).1 = .ok generated →
      (build_blindtest env.asmEnv generated args.output args.silence_duration
          args.audio_only).1 = .ok out → (main env args).1 = .exit 0) := by
  refine ⟨?_, ?_, ?_, ?_, ?_, ?_⟩
  · intro h; simp [main, mainCleanup, h]
  · intro h; simp [main, mainCleanup, h]
  · intro h; simp [main, mainTry, h]
  · intro videos e h1 h2 h3
    simp [main, mainTry, h1, h2, h3]
  · intro videos generated e h1 h2 h3 h4
    simp [main, mainTry, h1, h2, h3, h4]
  · intro videos generated out h1 h2 h3
    simp [main, mainTry, h1, h2, h3]

theorem orchestrator_cleanup_and_exit_witness :
    "downloads" ∈ (main runFetchFail defaultArgs).2 ∧
    "clips" ∈ (main runFetchFail defaultArgs).2 ∧
    (main runFetchFail defaultArgs).1 = .exit 1 ∧
    (main runAllOk defaultArgs).1 = .exit 0 := by
  have h1 := orchestrator_cleanup_and_exit runFetchFail defaultArgs
  have h2 := orchestrator_cleanup_and_exit runAllOk defaultArgs
  exact ⟨h1.1 rfl, h1.2.1 rfl, h1.2.2.1 rfl,
    h2.2.2.2.2.2 [item1, item2] ["clips/id1_clip.mp4", "clips/id2_clip.mp4"]
      "blindtest.mp4" rfl (by decide) (by decide)⟩

/-- C10: any start_strategy other than "random", recognized or not,
selects start offset 0 for an item of known duration at least the excerpt
duration, exactly as the "start" strategy does, and clip_videos raises no
invalid-parameter error for the unrecognized strategy name when
clip_duration is positive. -/
theorem unrecognized_strategy_start_zero (strat : String) (hs : strat ≠ "random") :
    (∀ (d cd : ℚ) (draw : ℚ → ℚ → ℚ), cd ≤ d →
      chooseStart strat (some d) cd draw = 0 ∧
      chooseStart strat (some d) cd draw = chooseStart "start" (some d) cd draw) ∧
    (∀ (env : ClipEnv) (clips : List VideoClip) (cd : ℚ) (dir : String) (ao : Bool),
      0 < cd →
      (clip_videos env clips cd dir strat ao).1 ≠ .error ClipError.invalidParameter) := by
  constructor
  · intro d cd draw hdc
    have h1 : ¬ d < cd := not_lt.mpr hdc
    refine ⟨by simp [chooseStart, h1, hs], ?_⟩
    simp [chooseStart, h1, hs]
  · intro env clips cd dir ao hcd h
    have h1 : ¬ cd ≤ 0 := not_le.mpr hcd
    by_cases h2 : env.moviepyAvailable
    · simp [clip_videos, h1, h2] at h
      obtain ⟨t, ht⟩ := clipLoop_error_is_writeFailed env cd dir strat ao clips 0 _ h
      simp at ht
    · simp [clip_videos, h1, h2] at h

theorem unrecognized_strategy_start_zero_witness :
    chooseStart "beginning" (some 20) 10 (fun lo _ => lo) = 0 ∧
    (clip_videos engineOk [item1] 10 "clips" "beginning" false).1 ≠
      .error ClipError.invalidParameter := by
  have h := unrecognized_strategy_start_zero "beginning" (by decide)
  exact ⟨(h.1 20 10 (fun lo _ => lo) (by norm_num)).1,
    h.2 engineOk [item1] 10 "clips" false (by norm_num)⟩

end BlindTest
